import Mathlib

/-!
Verification of the BEEFY light-client update pipeline and event monitor
of the hermes substrate relayer, as a shallow embedding in Lean 4.

The embedding translates the Rust source functions into Lean:
pure functions become Lean functions, RPC endpoints become an explicit
oracle record (`ChainRpc`), Rust panics become explicit error values of
the result type, and machine-integer arithmetic is `Nat` with explicit
`% 2^32` where overflow matters.
-/

namespace Hermes

/-! ## MMR proof fetcher (`build_mmr_proof` in update_client_state.rs) -/

/-- mmr proof struct: the two opaque encoded blobs returned by the chain
(`MmrProof { mmr_leaf, mmr_leaf_proof }`). -/
structure MmrProof where
  mmr_leaf : List Nat
  mmr_leaf_proof : List Nat
deriving Repr, DecidableEq

/-- an RPC call made by `build_mmr_proof`, recorded in order of execution. -/
inductive RpcCall where
  /-- the call `get_latest_height(src_client)` -/
  | getLatestHeight
  /-- the call `src_client.rpc().block_hash(Some(BlockNumber::from(n)))` -/
  | blockHash (n : Nat)
  /-- the call `get_mmr_leaf_and_mmr_proof(Some(target), Some(hash), src_client)` -/
  | getMmrLeafAndProof (target : Nat) (hash : Nat)
deriving Repr, DecidableEq

/-- failure modes of `build_mmr_proof`.  `blockTooNew` models the
`assert!(u64::from(block_number) <= latest_height, ...)` panic (the guard
violation the spec names `BlockTooNew`); `blockHashNone` models the
`block_hash.unwrap()` panic on a `None` hash; `rpcError` models an `Err`
propagated by the `?` operator from any of the three RPC calls. -/
inductive MmrFetchError where
  | rpcError
  | blockTooNew
  | blockHashNone
deriving Repr, DecidableEq

/-- Modelled from the spec: the source-chain RPC surface consumed by
`build_mmr_proof` (the bodies of `get_latest_height`,
`rpc().block_hash` and `get_mmr_leaf_and_mmr_proof` live in the
`substrate::rpc` module, outside the included sources; §6 of the spec
lists them as resolve-block-hash(height) and
fetch-MMR-leaf-and-proof(height, at-hash)).  An outer `none` is an RPC
transport error; the inner `Option` of `blockHash` is the optional
answer of the chain; `mmrLeafAndProof` returns `(block_hash, leaf, proof)` blobs. -/
structure ChainRpc where
  latestHeight : Option Nat
  blockHash : Nat → Option (Option Nat)
  mmrLeafAndProof : Nat → Nat → Option (Nat × List Nat × List Nat)

/-- wrapping 32-bit subtraction of one, as the unchecked Rust expression
`block_number - 1` behaves on `u32` (release profile): underflow wraps. -/
def u32SubOne (n : Nat) : Nat :=
  (n + (2 ^ 32 - 1)) % 2 ^ 32

/-- shallow embedding of `build_mmr_proof` (update_client_state.rs):
queries the latest height, asserts `block_number <= latest_height`,
resolves the block hash for `block_number`, unwraps it, and fetches the
MMR leaf and proof at target index `block_number - 1` at that hash.
Returns the result together with the ordered trace of RPC calls made. -/
def build_mmr_proof (rpc : ChainRpc) (block_number : Nat) :
    Except MmrFetchError MmrProof × List RpcCall :=
  match rpc.latestHeight with
  | none => (.error .rpcError, [.getLatestHeight])
  | some latest_height =>
    if block_number ≤ latest_height then
      match rpc.blockHash block_number with
      | none => (.error .rpcError, [.getLatestHeight, .blockHash block_number])
      | some none =>
          (.error .blockHashNone, [.getLatestHeight, .blockHash block_number])
      | some (some h) =>
        let target_height := u32SubOne block_number
        match rpc.mmrLeafAndProof target_height h with
        | none =>
            (.error .rpcError,
              [.getLatestHeight, .blockHash block_number,
                .getMmrLeafAndProof target_height h])
        | some (_gen_hash, mmr_leaf, mmr_leaf_proof) =>
            (.ok ⟨mmr_leaf, mmr_leaf_proof⟩,
              [.getLatestHeight, .blockHash block_number,
                .getMmrLeafAndProof target_height h])
    else
      (.error .blockTooNew, [.getLatestHeight])

/-- a concrete RPC oracle used to instantiate the hypotheses of the
fetcher theorems: latest finalized height 100, every block hash
resolvable, every MMR query answered. -/
def testRpc : ChainRpc where
  latestHeight := some 100
  blockHash := fun n => some (some (n + 1000))
  mmrLeafAndProof := fun t h => some (h, [t, 1], [t, 2])

end Hermes

namespace Hermes

/-- C2: for a commitment block number `b ≥ 1` within the finalized
bound, `build_mmr_proof` resolves the block hash for `b`, fetches the
MMR leaf and proof at target index `b - 1` at that hash, performs no
decoding of the returned blobs, and returns them unchanged in the
`MmrProof`; the RPC trace is exactly height query, hash resolution,
MMR fetch. -/
theorem build_mmr_proof_fetches_at_predecessor
    (rpc : ChainRpc) (b L h gh : Nat) (leaf proof : List Nat)
    (hL : rpc.latestHeight = some L) (hb1 : 1 ≤ b) (hb32 : b < 2 ^ 32)
    (hbL : b ≤ L) (hh : rpc.blockHash b = some (some h))
    (hm : rpc.mmrLeafAndProof (b - 1) h = some (gh, leaf, proof)) :
    build_mmr_proof rpc b =
      (.ok ⟨leaf, proof⟩,
        [.getLatestHeight, .blockHash b, .getMmrLeafAndProof (b - 1) h]) := by
  have htarget : u32SubOne b = b - 1 := by
    unfold u32SubOne
    omega
  unfold build_mmr_proof
  rw [hL]
  simp only [hbL, if_pos, hh, htarget, hm]

/-- witness instantiating `build_mmr_proof_fetches_at_predecessor` at the
concrete oracle `testRpc` with block number 5. -/
theorem build_mmr_proof_fetches_at_predecessor_witness :
    build_mmr_proof testRpc 5 =
      (.ok ⟨[4, 1], [4, 2]⟩,
        [.getLatestHeight, .blockHash 5, .getMmrLeafAndProof 4 1005]) :=
  build_mmr_proof_fetches_at_predecessor testRpc 5 100 1005 1005 [4, 1] [4, 2]
    rfl (by decide) (by decide) (by decide) rfl rfl

/-- C3: when the requested block number exceeds the latest finalized
height the fetcher fails with the `BlockTooNew` guard violation and the
RPC trace contains only the height query itself (zero further RPC
calls); at or below the latest finalized height the guard passes, so the
result is never the `BlockTooNew` failure. -/
theorem build_mmr_proof_block_too_new_guard
    (rpc : ChainRpc) (b L : Nat) (hL : rpc.latestHeight = some L) :
    (L < b →
      build_mmr_proof rpc b = (.error .blockTooNew, [.getLatestHeight])) ∧
    (b ≤ L → (build_mmr_proof rpc b).1 ≠ .error .blockTooNew) := by
  constructor
  · intro hlt
    unfold build_mmr_proof
    rw [hL]
    have : ¬ b ≤ L := by omega
    simp only [this, if_neg, ite_false]
  · intro hle
    unfold build_mmr_proof
    rw [hL]
    simp only [hle, if_pos, ite_true]
    cases hbh : rpc.blockHash b with
    | none => simp
    | some o =>
      cases o with
      | none => simp
      | some h =>
        cases hm : rpc.mmrLeafAndProof (u32SubOne b) h with
        | none => simp [hm]
        | some triple =>
          obtain ⟨gh, leaf, proof⟩ := triple
          simp [hm]

/-- witness instantiating `build_mmr_proof_block_too_new_guard` at the
concrete oracle `testRpc`: block 200 exceeds the finalized height 100
and fails with only the height query, while block 50 passes the guard. -/
theorem build_mmr_proof_block_too_new_guard_witness :
    build_mmr_proof testRpc 200 = (.error .blockTooNew, [.getLatestHeight]) ∧
    (build_mmr_proof testRpc 50).1 ≠ .error .blockTooNew :=
  ⟨(build_mmr_proof_block_too_new_guard testRpc 200 100 rfl).1 (by decide),
    (build_mmr_proof_block_too_new_guard testRpc 50 100 rfl).2 (by decide)⟩

/-- C10: the MMR target index is the unchecked 32-bit subtraction
`block_number - 1`, so `build_mmr_proof` requires `block_number ≥ 1`:
for `block_number = 0` the guard still passes (0 is at or below any
finalized height) and the subtraction underflows to `2^32 - 1` instead
of producing an error — the fetch is issued at that wrapped index —
while under the precondition `1 ≤ block_number` the target is the
ordinary `block_number - 1`. -/
theorem build_mmr_proof_underflow_at_zero
    (rpc : ChainRpc) (L h : Nat)
    (hL : rpc.latestHeight = some L) (hh : rpc.blockHash 0 = some (some h)) :
    (build_mmr_proof rpc 0).1 ≠ .error .blockTooNew ∧
    RpcCall.getMmrLeafAndProof (2 ^ 32 - 1) h ∈ (build_mmr_proof rpc 0).2 ∧
    (∀ b : Nat, 1 ≤ b → b < 2 ^ 32 → u32SubOne b = b - 1) ∧
    u32SubOne 0 = 2 ^ 32 - 1 := by
  have h0 : u32SubOne 0 = 2 ^ 32 - 1 := by unfold u32SubOne; decide
  refine ⟨?_, ?_, ?_, h0⟩
  · unfold build_mmr_proof
    rw [hL]
    simp only [Nat.zero_le, if_pos, ite_true, hh, h0]
    cases hm : rpc.mmrLeafAndProof (2 ^ 32 - 1) h with
    | none => simp [hm]
    | some triple =>
      obtain ⟨gh, leaf, proof⟩ := triple
      simp [hm]
  · unfold build_mmr_proof
    rw [hL]
    simp only [Nat.zero_le, if_pos, ite_true, hh, h0]
    cases hm : rpc.mmrLeafAndProof (2 ^ 32 - 1) h with
    | none => simp
    | some triple => simp
  · intro b hb1 hb32
    unfold u32SubOne
    omega

/-- witness instantiating `build_mmr_proof_underflow_at_zero` at the
concrete oracle `testRpc`: requesting block 0 passes the guard and
issues the MMR fetch at the wrapped index `2^32 - 1`. -/
theorem build_mmr_proof_underflow_at_zero_witness :
    (build_mmr_proof testRpc 0).1 ≠ .error .blockTooNew ∧
    RpcCall.getMmrLeafAndProof (2 ^ 32 - 1) 1000 ∈ (build_mmr_proof testRpc 0).2 :=
  ⟨(build_mmr_proof_underflow_at_zero testRpc 100 1000 rfl rfl).1,
    (build_mmr_proof_underflow_at_zero testRpc 100 1000 rfl rfl).2.1⟩

end Hermes

namespace Hermes

/-! ## Update pipeline submission loop (`update_client_state` /
`update_client_state_service` in update_client_state.rs) -/

/-- result of one `send_update_state_request` call: `Ok(tx_hash)` or an
error message (`Result<H256>`). -/
inductive SubmitResult where
  | success (tx_hash : Nat)
  | failure (err : String)
deriving Repr, DecidableEq

/-- shallow embedding of the per-destination submission loop shared by
`update_client_state` and `update_client_state_service`: for every
client id obtained from the target chain, one
`send_update_state_request` is attempted, and the `match` on its result
only logs — there is no early return, so the loop always advances to the
next client.  The returned list records each attempt with its result in
order. -/
def submit_to_matching_clients (send : String → SubmitResult) :
    List String → List (String × SubmitResult)
  | [] => []
  | client_id :: rest =>
    let result := send client_id
    (client_id, result) :: submit_to_matching_clients send rest

end Hermes

namespace Hermes

/-- C4: submission of an assembled MmrRoot iterates all matching
destination clients; every client receives exactly one submission
attempt carrying its own result, so a failure on any one client never
prevents the remaining clients from being attempted (with 3 clients and
client #2 failing, clients #1 and #3 each still get exactly one
attempt). -/
theorem submit_to_matching_clients_isolated
    (send : String → SubmitResult) (ids : List String) :
    submit_to_matching_clients send ids = ids.map fun cid => (cid, send cid) := by
  induction ids with
  | nil => rfl
  | cons cid rest ih =>
    simp [submit_to_matching_clients, ih]

end Hermes

namespace Hermes

/-! ## Service-mode commitment loop (`update_client_state_service`) -/

/-- shallow embedding of the decode step of the service-mode loop body: each
raw `SignedCommitment` from the justification stream is decoded with
`commitment::SignedCommitment::decode(&mut &raw[..]).unwrap()`.  The
decoder is a parameter (the SCALE codec lives in the external
`beefy_light_client` crate); a decoded commitment is abstracted to its
processed value.  The function runs the loop over a finite prefix of the
stream and returns the commitments processed in order together with a
flag recording whether the loop panicked: a `None` decode makes the
`.unwrap()` panic, which terminates the whole loop, so nothing after the
failing commitment is processed. -/
def update_client_state_service_loop (decode : List Nat → Option Nat) :
    List (List Nat) → List Nat × Bool
  | [] => ([], false)
  | raw :: rest =>
    match decode raw with
    | none => ([], true)
    | some c =>
      let (processed, panicked) := update_client_state_service_loop decode rest
      (c :: processed, panicked)

/-- a concrete decoder for the counterexample: a raw blob decodes to its
first byte and fails on the empty blob (schema mismatch). -/
def headDecoder : List Nat → Option Nat := fun raw => raw.head?

end Hermes

namespace Hermes

/-- C5 counterexample: with a stream holding one undecodable raw
commitment `[]` followed by a decodable one `[7]`, the service loop
panics on the first and processes nothing afterwards — the subsequent
commitment `7` is never processed, so a decode failure is fatal to the
stream rather than local to one commitment. -/
theorem service_decode_failure_is_fatal_cex :
    update_client_state_service_loop headDecoder [[], [7]] = ([], true) ∧
    headDecoder [7] = some 7 ∧
    7 ∉ (update_client_state_service_loop headDecoder [[], [7]]).1 := by
  refine ⟨rfl, rfl, ?_⟩
  decide

/-- C5 amended: in service mode a failure to decode one SignedCommitment
panics via `.unwrap()`, terminating the entire service loop: the
commitments processed are exactly the decodable prefix of the stream
before the first failure, and the loop panics precisely when some
streamed commitment fails to decode. -/
theorem service_loop_stops_at_first_decode_failure
    (decode : List Nat → Option Nat) (stream : List (List Nat)) :
    update_client_state_service_loop decode stream =
      ((stream.takeWhile fun r => (decode r).isSome).filterMap decode,
        stream.any fun r => (decode r).isNone) := by
  induction stream with
  | nil => rfl
  | cons raw rest ih =>
    cases hd : decode raw with
    | none =>
      simp [update_client_state_service_loop, hd, List.takeWhile, List.any]
    | some c =>
      simp [update_client_state_service_loop, hd, ih, List.takeWhile, List.any]

end Hermes

namespace Hermes
namespace Grandpa

/-! ## Commitment codec (signed_commitment.rs in
relayer-types/clients/ics10_grandpa/header/beefy_mmr) -/

/-- error type of the ics10 grandpa conversions (`Error`); the
conversions in signed_commitment.rs construct none of its variants, but
the `TryFrom` signatures return it. -/
inductive GrandpaConversionError where
  | other (msg : String)
deriving Repr, DecidableEq

/-- actual payload items: 2-byte payload id plus arbitrary length
payload data (`PayloadItem { id, data }`). -/
structure PayloadItem where
  id : List Nat
  data : List Nat
deriving Repr, DecidableEq

/-- commitment message signed by beefy validators
(`Commitment { payloads, block_number, validator_set_id }`);
`block_number` is a `u32` and `validator_set_id` a `u64` in the source. -/
structure Commitment where
  payloads : List PayloadItem
  block_number : Nat
  validator_set_id : Nat
deriving Repr, DecidableEq

/-- signature with its index in the merkle tree
(`Signature { index, signature }`). -/
structure Signature where
  index : Nat
  signature : List Nat
deriving Repr, DecidableEq

/-- signed commitment data
(`SignedCommitment { commitment, signatures }`). -/
structure SignedCommitment where
  commitment : Option Commitment
  signatures : List Signature
deriving Repr, DecidableEq

/-- raw wire mirror of `PayloadItem`
(`ibc_proto::...::grandpa::v1::PayloadItem`). -/
structure RawPayloadItem where
  id : List Nat
  data : List Nat
deriving Repr, DecidableEq

/-- raw wire mirror of `Commitment`. -/
structure RawCommitment where
  payloads : List RawPayloadItem
  block_number : Nat
  validator_set_id : Nat
deriving Repr, DecidableEq

/-- raw wire mirror of `Signature`. -/
structure RawSignature where
  index : Nat
  signature : List Nat
deriving Repr, DecidableEq

/-- raw wire mirror of `SignedCommitment`; its commitment field is
optional on the wire. -/
structure RawSignedCommitment where
  commitment : Option RawCommitment
  signatures : List RawSignature
deriving Repr, DecidableEq

/-- the impl `From<PayloadItem> for RawPayloadItem` (encode direction). -/
def PayloadItem.intoRaw (v : PayloadItem) : RawPayloadItem :=
  { id := v.id, data := v.data }

/-- the impl `TryFrom<RawPayloadItem> for PayloadItem` (decode direction). -/
def PayloadItem.tryFromRaw (raw : RawPayloadItem) :
    Except GrandpaConversionError PayloadItem :=
  .ok { id := raw.id, data := raw.data }

/-- the impl `From<Commitment> for RawCommitment` (encode direction). -/
def Commitment.intoRaw (v : Commitment) : RawCommitment :=
  { payloads := v.payloads.map PayloadItem.intoRaw
    block_number := v.block_number
    validator_set_id := v.validator_set_id }

/-- fallible element-wise conversion of a list, stopping at the first
failure, as the Rust chain `.map(TryInto::try_into).collect::<Result<Vec<_>, _>>`
does. -/
def collectExcept {α β γ : Type} (f : β → Except γ α) : List β → Except γ (List α)
  | [] => .ok []
  | b :: rest => do
    let a ← f b
    let tail ← collectExcept f rest
    .ok (a :: tail)

/-- the impl `TryFrom<RawCommitment> for Commitment`: converts every payload
item, collecting the first failure (`collect::<Result<Vec<_>, _>>`). -/
def Commitment.tryFromRaw (raw : RawCommitment) :
    Except GrandpaConversionError Commitment := do
  let payloads ← collectExcept PayloadItem.tryFromRaw raw.payloads
  .ok { payloads := payloads
        block_number := raw.block_number
        validator_set_id := raw.validator_set_id }

/-- the impl `From<Signature> for RawSignature` (encode direction). -/
def Signature.intoRaw (v : Signature) : RawSignature :=
  { index := v.index, signature := v.signature }

/-- the impl `TryFrom<RawSignature> for Signature` (decode direction). -/
def Signature.tryFromRaw (raw : RawSignature) :
    Except GrandpaConversionError Signature :=
  .ok { index := raw.index, signature := raw.signature }

/-- the impl `From<SignedCommitment> for RawSignedCommitment`:
`commitment.map(Into::into)` and every signature converted. -/
def SignedCommitment.intoRaw (v : SignedCommitment) : RawSignedCommitment :=
  { commitment := v.commitment.map Commitment.intoRaw
    signatures := v.signatures.map Signature.intoRaw }

/-- the impl `TryFrom<RawSignedCommitment> for SignedCommitment`: the raw
optional commitment is converted with
`map(TryInto::try_into).map_or(Ok(None), |r| r.map(Some))` and the
signatures are collected through `Result`. -/
def SignedCommitment.tryFromRaw (raw : RawSignedCommitment) :
    Except GrandpaConversionError SignedCommitment := do
  let commitment ←
    match raw.commitment.map Commitment.tryFromRaw with
    | none => .ok none
    | some r => r.map some
  let signatures ← collectExcept Signature.tryFromRaw raw.signatures
  .ok { commitment := commitment, signatures := signatures }

end Grandpa
end Hermes

namespace Hermes

/-- list round-trip helper: converting a mapped list back element by
element through a pointwise-inverse fallible conversion recovers the
original list. -/
theorem collectExcept_roundtrip {α β γ : Type} (enc : α → β)
    (dec : β → Except γ α) (hinv : ∀ a, dec (enc a) = .ok a) :
    ∀ l : List α, Grandpa.collectExcept dec (l.map enc) = .ok l := by
  intro l
  induction l with
  | nil => rfl
  | cons a rest ih =>
    simp [Grandpa.collectExcept, hinv, ih]
    rfl

/-- C7: for every SignedCommitment value (optional commitment with
payload items, block number, validator set id, and indexed signatures),
encoding to the raw wire representation and decoding back yields the
value unchanged: `decode(encode(c)) = Ok(c)`. -/
theorem signed_commitment_roundtrip (c : Grandpa.SignedCommitment) :
    Grandpa.SignedCommitment.tryFromRaw (Grandpa.SignedCommitment.intoRaw c) =
      .ok c := by
  obtain ⟨commitment, signatures⟩ := c
  have hsig : ∀ s : Grandpa.Signature,
      Grandpa.Signature.tryFromRaw (Grandpa.Signature.intoRaw s) = .ok s := by
    intro s
    rfl
  have hpay : ∀ p : Grandpa.PayloadItem,
      Grandpa.PayloadItem.tryFromRaw (Grandpa.PayloadItem.intoRaw p) = .ok p := by
    intro p
    rfl
  have hcomm : ∀ cm : Grandpa.Commitment,
      Grandpa.Commitment.tryFromRaw (Grandpa.Commitment.intoRaw cm) = .ok cm := by
    intro cm
    obtain ⟨payloads, bn, vsi⟩ := cm
    simp [Grandpa.Commitment.intoRaw, Grandpa.Commitment.tryFromRaw,
      collectExcept_roundtrip _ _ hpay]
    rfl
  cases commitment with
  | none =>
    simp [Grandpa.SignedCommitment.intoRaw, Grandpa.SignedCommitment.tryFromRaw,
      collectExcept_roundtrip _ _ hsig]
    rfl
  | some cm =>
    simp [Grandpa.SignedCommitment.intoRaw, Grandpa.SignedCommitment.tryFromRaw,
      hcomm, collectExcept_roundtrip _ _ hsig]
    rfl

end Hermes

namespace Hermes
namespace Monitor

/-! ## Event monitor (substrate_mointor.rs): raw event decoding and the
per-event handling unit -/

/-- an IBC height (`ibc_relayer_types::core::ics02_client::height::Height`). -/
structure Height where
  revision_number : Nat
  revision_height : Nat
deriving Repr, DecidableEq

/-- Modelled from the spec: `REVISION_NUMBER` is a constant of
`crate::chain::substrate`, whose defining module is outside the included
sources; its concrete value is immaterial to every claim, and the spec
treats it as a fixed revision tag of the source chain. -/
def REVISION_NUMBER : Nat := 0

/-- Modelled from the spec: `Height::new(revision_number, revision_height)`
is defined in ibc_relayer_types (outside the included sources); the spec
(§3) treats `EventBatch.height` as a plain height value, so construction
is total here and the `.expect("REVISION_NUMBER")` at each call site
never fires in the model. -/
def Height.new (revision_number revision_height : Nat) : Height :=
  { revision_number := revision_number, revision_height := revision_height }

/-- decoded payload of the three client event kinds (generated
`ibc_node::ibc::events::{CreateClient, UpdateClient, ClientMisbehaviour}`). -/
structure ClientEventData where
  height : Height
  client_id : String
  client_type : String
  consensus_height : Height
deriving Repr, DecidableEq

/-- decoded payload of the four connection handshake event kinds. -/
structure ConnectionEventData where
  height : Height
  connection_id : Option String
  client_id : String
  counterparty_connection_id : Option String
  counterparty_client_id : String
deriving Repr, DecidableEq

/-- decoded payload of the six channel handshake/close event kinds. -/
structure ChannelEventData where
  height : Height
  port_id : String
  channel_id : Option String
  connection_id : String
  counterparty_port_id : String
  counterparty_channel_id : Option String
deriving Repr, DecidableEq

/-- decoded payload of the packet event kinds; the packet itself is an
opaque record here. -/
structure PacketEventData where
  height : Height
  packet : List Nat
deriving Repr, DecidableEq

/-- decoded payload of `WriteAcknowledgement`. -/
structure WriteAckEventData where
  height : Height
  packet : List Nat
  ack : List Nat
deriving Repr, DecidableEq

/-- decoded payload of `AppModule` (`event.0`): a raw byte `kind`, a
module name and attribute pairs. -/
structure ModuleEventData where
  kind : List Nat
  module_name : String
  attrs : List (String × String)
deriving Repr, DecidableEq

/-- canonical protocol event (`IbcEvent`), restricted to the variants
produced by `from_raw_event_to_batch_event`. -/
inductive IbcEvent where
  | createClient (client_id client_type : String) (consensus_height : Height)
  | updateClient (client_id client_type : String) (consensus_height : Height)
  | clientMisbehaviour (client_id client_type : String) (consensus_height : Height)
  | openInitConnection (connection_id : Option String) (client_id : String)
      (counterparty_connection_id : Option String) (counterparty_client_id : String)
  | openTryConnection (connection_id : Option String) (client_id : String)
      (counterparty_connection_id : Option String) (counterparty_client_id : String)
  | openAckConnection (connection_id : Option String) (client_id : String)
      (counterparty_connection_id : Option String) (counterparty_client_id : String)
  | openConfirmConnection (connection_id : Option String) (client_id : String)
      (counterparty_connection_id : Option String) (counterparty_client_id : String)
  | openInitChannel (port_id : String) (channel_id : Option String)
      (connection_id : String) (counterparty_port_id : String)
      (counterparty_channel_id : Option String)
  | openTryChannel (port_id : String) (channel_id : Option String)
      (connection_id : String) (counterparty_port_id : String)
      (counterparty_channel_id : Option String)
  | openAckChannel (port_id : String) (channel_id : Option String)
      (connection_id : String) (counterparty_port_id : String)
      (counterparty_channel_id : Option String)
  | openConfirmChannel (port_id : String) (channel_id : Option String)
      (connection_id : String) (counterparty_port_id : String)
      (counterparty_channel_id : Option String)
  | closeInitChannel (port_id : String) (channel_id : String)
      (connection_id : String) (counterparty_port_id : String)
      (counterparty_channel_id : Option String)
  | closeConfirmChannel (port_id : String) (channel_id : Option String)
      (connection_id : String) (counterparty_port_id : String)
      (counterparty_channel_id : Option String)
  | sendPacket (packet : List Nat)
  | receivePacket (packet : List Nat)
  | writeAcknowledgement (packet : List Nat) (ack : List Nat)
  | acknowledgePacket (packet : List Nat)
  | timeoutPacket (packet : List Nat)
  | timeoutOnClosePacket (packet : List Nat)
  | appModule (kind : String) (module_name : String)
      (attrs : List (String × String))
  | chainError (data : String)
  | newBlock (height : Height)
deriving Repr, DecidableEq

/-- an event batch (`EventBatch { height, events, chain_id, tracking_id }`);
the `tracking_id` is a fresh random UUID per batch and is outside this
deterministic embedding. -/
structure EventBatch where
  height : Height
  events : List IbcEvent
  chain_id : String
deriving Repr, DecidableEq

/-- the SCALE decoders invoked per event kind
(`<ibc_node::ibc::events::X as codec::Decode>::decode`) together with
`String::from_utf8`; they are generated/external code, so the embedding
takes them as parameters, `none` standing for a decode `Err`. -/
structure EventDecoders where
  createClient : List Nat → Option ClientEventData
  updateClient : List Nat → Option ClientEventData
  clientMisbehaviour : List Nat → Option ClientEventData
  openInitConnection : List Nat → Option ConnectionEventData
  openTryConnection : List Nat → Option ConnectionEventData
  openAckConnection : List Nat → Option ConnectionEventData
  openConfirmConnection : List Nat → Option ConnectionEventData
  openInitChannel : List Nat → Option ChannelEventData
  openTryChannel : List Nat → Option ChannelEventData
  openAckChannel : List Nat → Option ChannelEventData
  openConfirmChannel : List Nat → Option ChannelEventData
  closeInitChannel : List Nat → Option ChannelEventData
  closeConfirmChannel : List Nat → Option ChannelEventData
  sendPacket : List Nat → Option PacketEventData
  receivePacket : List Nat → Option PacketEventData
  writeAcknowledgement : List Nat → Option WriteAckEventData
  acknowledgePacket : List Nat → Option PacketEventData
  timeoutPacket : List Nat → Option PacketEventData
  timeoutOnClosePacket : List Nat → Option PacketEventData
  appModule : List Nat → Option ModuleEventData
  chainError : List Nat → Option (List Nat)
  extrinsicSuccess : List Nat → Option Unit
  fromUtf8 : List Nat → Option String

/-- monitor-local errors produced by `from_raw_event_to_batch_event`
(`Error::invalid_codec_decode`, `Error::invalid_from_utf8`). -/
inductive MonitorError where
  | invalidCodecDecode
  | invalidFromUtf8
deriving Repr, DecidableEq

/-- a Rust computation outcome: `Ok`, `Err`, or a panic (used for the
`.unwrap()` / `.expect(...)` calls in the source). -/
inductive RustResult (α : Type) where
  | ok (value : α)
  | err (e : MonitorError)
  | panicked (msg : String)
deriving Repr, DecidableEq

/-- a raw chain event (`RawEventDetails { variant, data, .. }`). -/
structure RawEventDetails where
  variant : String
  data : List Nat
deriving Repr, DecidableEq

/-- shallow embedding of `from_raw_event_to_batch_event`
(substrate_mointor.rs): dispatch on the variant string of the raw event; each
known kind SCALE-decodes its payload, mapping a decode failure to
`invalid_codec_decode` — except the `AppModule` branch, which calls
`.unwrap()` on the decode result and `.expect("convert kind error")` on
the UTF-8 conversion, both of which panic.  `ChainError` maps a UTF-8
failure to `invalid_from_utf8`.  `AppModule`, `ChainError`,
`ExtrinsicSuccess` and the catch-all unknown branch stamp the batch with
`Height::new(REVISION_NUMBER, height)` from the `height` argument; every
other kind takes the height from the decoded event payload.  Unknown
kinds yield an `Ok` batch with an empty event list. -/
def from_raw_event_to_batch_event (d : EventDecoders) (raw : RawEventDetails)
    (chain_id : String) (height : Nat) : RustResult EventBatch :=
  match raw.variant with
  | "CreateClient" =>
    match d.createClient raw.data with
    | none => .err .invalidCodecDecode
    | some e =>
      .ok { height := e.height
            events := [.createClient e.client_id e.client_type e.consensus_height]
            chain_id := chain_id }
  | "UpdateClient" =>
    match d.updateClient raw.data with
    | none => .err .invalidCodecDecode
    | some e =>
      .ok { height := e.height
            events := [.updateClient e.client_id e.client_type e.consensus_height]
            chain_id := chain_id }
  | "ClientMisbehaviour" =>
    match d.clientMisbehaviour raw.data with
    | none => .err .invalidCodecDecode
    | some e =>
      .ok { height := e.height
            events := [.clientMisbehaviour e.client_id e.client_type e.consensus_height]
            chain_id := chain_id }
  | "OpenInitConnection" =>
    match d.openInitConnection raw.data with
    | none => .err .invalidCodecDecode
    | some e =>
      .ok { height := e.height
            events := [.openInitConnection e.connection_id e.client_id
              e.counterparty_connection_id e.counterparty_client_id]
            chain_id := chain_id }
  | "OpenTryConnection" =>
    match d.openTryConnection raw.data with
    | none => .err .invalidCodecDecode
    | some e =>
      .ok { height := e.height
            events := [.openTryConnection e.connection_id e.client_id
              e.counterparty_connection_id e.counterparty_client_id]
            chain_id := chain_id }
  | "OpenAckConnection" =>
    match d.openAckConnection raw.data with
    | none => .err .invalidCodecDecode
    | some e =>
      .ok { height := e.height
            events := [.openAckConnection e.connection_id e.client_id
              e.counterparty_connection_id e.counterparty_client_id]
            chain_id := chain_id }
  | "OpenConfirmConnection" =>
    match d.openConfirmConnection raw.data with
    | none => .err .invalidCodecDecode
    | some e =>
      .ok { height := e.height
            events := [.openConfirmConnection e.connection_id e.client_id
              e.counterparty_connection_id e.counterparty_client_id]
            chain_id := chain_id }
  | "OpenInitChannel" =>
    match d.openInitChannel raw.data with
    | none => .err .invalidCodecDecode
    | some e =>
      .ok { height := e.height
            events := [.openInitChannel e.port_id e.channel_id e.connection_id
              e.counterparty_port_id e.counterparty_channel_id]
            chain_id := chain_id }
  | "OpenTryChannel" =>
    match d.openTryChannel raw.data with
    | none => .err .invalidCodecDecode
    | some e =>
      .ok { height := e.height
            events := [.openTryChannel e.port_id e.channel_id e.connection_id
              e.counterparty_port_id e.counterparty_channel_id]
            chain_id := chain_id }
  | "OpenAckChannel" =>
    match d.openAckChannel raw.data with
    | none => .err .invalidCodecDecode
    | some e =>
      .ok { height := e.height
            events := [.openAckChannel e.port_id e.channel_id e.connection_id
              e.counterparty_port_id e.counterparty_channel_id]
            chain_id := chain_id }
  | "OpenConfirmChannel" =>
    match d.openConfirmChannel raw.data with
    | none => .err .invalidCodecDecode
    | some e =>
      .ok { height := e.height
            events := [.openConfirmChannel e.port_id e.channel_id e.connection_id
              e.counterparty_port_id e.counterparty_channel_id]
            chain_id := chain_id }
  | "CloseInitChannel" =>
    match d.closeInitChannel raw.data with
    | none => .err .invalidCodecDecode
    | some e =>
      .ok { height := e.height
            events := [.closeInitChannel e.port_id (e.channel_id.getD "")
              e.connection_id e.counterparty_port_id e.counterparty_channel_id]
            chain_id := chain_id }
  | "CloseConfirmChannel" =>
    match d.closeConfirmChannel raw.data with
    | none => .err .invalidCodecDecode
    | some e =>
      .ok { height := e.height
            events := [.closeConfirmChannel e.port_id e.channel_id e.connection_id
              e.counterparty_port_id e.counterparty_channel_id]
            chain_id := chain_id }
  | "SendPacket" =>
    match d.sendPacket raw.data with
    | none => .err .invalidCodecDecode
    | some e =>
      .ok { height := e.height
            events := [.sendPacket e.packet]
            chain_id := chain_id }
  | "ReceivePacket" =>
    match d.receivePacket raw.data with
    | none => .err .invalidCodecDecode
    | some e =>
      .ok { height := e.height
            events := [.receivePacket e.packet]
            chain_id := chain_id }
  | "WriteAcknowledgement" =>
    match d.writeAcknowledgement raw.data with
    | none => .err .invalidCodecDecode
    | some e =>
      .ok { height := e.height
            events := [.writeAcknowledgement e.packet e.ack]
            chain_id := chain_id }
  | "AcknowledgePacket" =>
    match d.acknowledgePacket raw.data with
    | none => .err .invalidCodecDecode
    | some e =>
      .ok { height := e.height
            events := [.acknowledgePacket e.packet]
            chain_id := chain_id }
  | "TimeoutPacket" =>
    match d.timeoutPacket raw.data with
    | none => .err .invalidCodecDecode
    | some e =>
      .ok { height := e.height
            events := [.timeoutPacket e.packet]
            chain_id := chain_id }
  | "TimeoutOnClosePacket" =>
    match d.timeoutOnClosePacket raw.data with
    | none => .err .invalidCodecDecode
    | some e =>
      .ok { height := e.height
            events := [.timeoutOnClosePacket e.packet]
            chain_id := chain_id }
  | "AppModule" =>
    match d.appModule raw.data with
    | none => .panicked "called `Result::unwrap()` on an `Err` value"
    | some e =>
      match d.fromUtf8 e.kind with
      | none => .panicked "convert kind error"
      | some kind =>
        .ok { height := Height.new REVISION_NUMBER height
              events := [.appModule kind e.module_name e.attrs]
              chain_id := chain_id }
  | "ChainError" =>
    match d.chainError raw.data with
    | none => .err .invalidCodecDecode
    | some bytes =>
      match d.fromUtf8 bytes with
      | none => .err .invalidFromUtf8
      | some data =>
        .ok { height := Height.new REVISION_NUMBER height
              events := [.chainError data]
              chain_id := chain_id }
  | "ExtrinsicSuccess" =>
    match d.extrinsicSuccess raw.data with
    | none => .err .invalidCodecDecode
    | some _ =>
      .ok { height := Height.new REVISION_NUMBER height
            events := [.newBlock (Height.new REVISION_NUMBER height)]
            chain_id := chain_id }
  | _ =>
    .ok { height := Height.new REVISION_NUMBER height
          events := []
          chain_id := chain_id }

/-- shallow embedding of `handle_single_event` (substrate_mointor.rs):
`latest_height` is the value `get_latest_height(client).await` returns
at this very call (queried fresh per event, never cached); the decoded
batch is published (`some`) only when its event list is non-empty, a
decode error is only traced (`none` published), and a panic in the
decode propagates as a panic of the spawned task. -/
def handle_single_event (d : EventDecoders) (raw : RawEventDetails)
    (chain_id : String) (latest_height : Nat) : RustResult (Option EventBatch) :=
  match from_raw_event_to_batch_event d raw chain_id latest_height with
  | .ok batch => if batch.events.isEmpty then .ok none else .ok (some batch)
  | .err _ => .ok none
  | .panicked msg => .panicked msg

/-- the event kinds recognized by `from_raw_event_to_batch_event`. -/
def knownKinds : List String :=
  ["CreateClient", "UpdateClient", "ClientMisbehaviour",
   "OpenInitConnection", "OpenTryConnection", "OpenAckConnection",
   "OpenConfirmConnection",
   "OpenInitChannel", "OpenTryChannel", "OpenAckChannel",
   "OpenConfirmChannel", "CloseInitChannel", "CloseConfirmChannel",
   "SendPacket", "ReceivePacket", "WriteAcknowledgement",
   "AcknowledgePacket", "TimeoutPacket", "TimeoutOnClosePacket",
   "AppModule", "ChainError", "ExtrinsicSuccess"]

/-- the known kinds whose batch height comes from the decoded event
payload rather than the queried latest height. -/
def payloadHeightKinds : List String :=
  ["CreateClient", "UpdateClient", "ClientMisbehaviour",
   "OpenInitConnection", "OpenTryConnection", "OpenAckConnection",
   "OpenConfirmConnection",
   "OpenInitChannel", "OpenTryChannel", "OpenAckChannel",
   "OpenConfirmChannel", "CloseInitChannel", "CloseConfirmChannel",
   "SendPacket", "ReceivePacket", "WriteAcknowledgement",
   "AcknowledgePacket", "TimeoutPacket", "TimeoutOnClosePacket"]

/-- whether the payload decoder selected by the variant of the raw event
rejects the payload (known kinds only; `false` on unknown kinds). -/
def payloadDecodeFails (d : EventDecoders) (raw : RawEventDetails) : Bool :=
  match raw.variant with
  | "CreateClient" => (d.createClient raw.data).isNone
  | "UpdateClient" => (d.updateClient raw.data).isNone
  | "ClientMisbehaviour" => (d.clientMisbehaviour raw.data).isNone
  | "OpenInitConnection" => (d.openInitConnection raw.data).isNone
  | "OpenTryConnection" => (d.openTryConnection raw.data).isNone
  | "OpenAckConnection" => (d.openAckConnection raw.data).isNone
  | "OpenConfirmConnection" => (d.openConfirmConnection raw.data).isNone
  | "OpenInitChannel" => (d.openInitChannel raw.data).isNone
  | "OpenTryChannel" => (d.openTryChannel raw.data).isNone
  | "OpenAckChannel" => (d.openAckChannel raw.data).isNone
  | "OpenConfirmChannel" => (d.openConfirmChannel raw.data).isNone
  | "CloseInitChannel" => (d.closeInitChannel raw.data).isNone
  | "CloseConfirmChannel" => (d.closeConfirmChannel raw.data).isNone
  | "SendPacket" => (d.sendPacket raw.data).isNone
  | "ReceivePacket" => (d.receivePacket raw.data).isNone
  | "WriteAcknowledgement" => (d.writeAcknowledgement raw.data).isNone
  | "AcknowledgePacket" => (d.acknowledgePacket raw.data).isNone
  | "TimeoutPacket" => (d.timeoutPacket raw.data).isNone
  | "TimeoutOnClosePacket" => (d.timeoutOnClosePacket raw.data).isNone
  | "AppModule" => (d.appModule raw.data).isNone
  | "ChainError" => (d.chainError raw.data).isNone
  | "ExtrinsicSuccess" => (d.extrinsicSuccess raw.data).isNone
  | _ => false

/-- the height field of the decoded payload selected by the variant of
the raw event, for the kinds in `payloadHeightKinds`. -/
def payloadEventHeight (d : EventDecoders) (raw : RawEventDetails) :
    Option Height :=
  match raw.variant with
  | "CreateClient" => (d.createClient raw.data).map (·.height)
  | "UpdateClient" => (d.updateClient raw.data).map (·.height)
  | "ClientMisbehaviour" => (d.clientMisbehaviour raw.data).map (·.height)
  | "OpenInitConnection" => (d.openInitConnection raw.data).map (·.height)
  | "OpenTryConnection" => (d.openTryConnection raw.data).map (·.height)
  | "OpenAckConnection" => (d.openAckConnection raw.data).map (·.height)
  | "OpenConfirmConnection" => (d.openConfirmConnection raw.data).map (·.height)
  | "OpenInitChannel" => (d.openInitChannel raw.data).map (·.height)
  | "OpenTryChannel" => (d.openTryChannel raw.data).map (·.height)
  | "OpenAckChannel" => (d.openAckChannel raw.data).map (·.height)
  | "OpenConfirmChannel" => (d.openConfirmChannel raw.data).map (·.height)
  | "CloseInitChannel" => (d.closeInitChannel raw.data).map (·.height)
  | "CloseConfirmChannel" => (d.closeConfirmChannel raw.data).map (·.height)
  | "SendPacket" => (d.sendPacket raw.data).map (·.height)
  | "ReceivePacket" => (d.receivePacket raw.data).map (·.height)
  | "WriteAcknowledgement" => (d.writeAcknowledgement raw.data).map (·.height)
  | "AcknowledgePacket" => (d.acknowledgePacket raw.data).map (·.height)
  | "TimeoutPacket" => (d.timeoutPacket raw.data).map (·.height)
  | "TimeoutOnClosePacket" => (d.timeoutOnClosePacket raw.data).map (·.height)
  | _ => none

/-- a concrete decoder family on which every payload fails to decode. -/
def rejectAllDecoders : EventDecoders where
  createClient := fun _ => none
  updateClient := fun _ => none
  clientMisbehaviour := fun _ => none
  openInitConnection := fun _ => none
  openTryConnection := fun _ => none
  openAckConnection := fun _ => none
  openConfirmConnection := fun _ => none
  openInitChannel := fun _ => none
  openTryChannel := fun _ => none
  openAckChannel := fun _ => none
  openConfirmChannel := fun _ => none
  closeInitChannel := fun _ => none
  closeConfirmChannel := fun _ => none
  sendPacket := fun _ => none
  receivePacket := fun _ => none
  writeAcknowledgement := fun _ => none
  acknowledgePacket := fun _ => none
  timeoutPacket := fun _ => none
  timeoutOnClosePacket := fun _ => none
  appModule := fun _ => none
  chainError := fun _ => none
  extrinsicSuccess := fun _ => none
  fromUtf8 := fun _ => none

/-- a concrete decoder family on which `CreateClient` decodes to a
payload carrying height 99 and `ExtrinsicSuccess` decodes; the rest
reject. -/
def payloadHeight99Decoders : EventDecoders :=
  { rejectAllDecoders with
    createClient := fun _ =>
      some { height := ⟨0, 99⟩
             client_id := "07-tendermint-0"
             client_type := "07-tendermint"
             consensus_height := ⟨0, 98⟩ }
    extrinsicSuccess := fun _ => some () }

end Monitor
end Hermes

namespace Hermes

/-- C6 counterexample: the `AppModule` branch of
`from_raw_event_to_batch_event` calls `.unwrap()` on the decode result,
so a malformed payload for the known kind `AppModule` panics instead of
yielding the `InvalidCodecDecode` error the claim requires. -/
theorem from_raw_app_module_decode_panic_cex :
    Monitor.from_raw_event_to_batch_event Monitor.rejectAllDecoders
        ⟨"AppModule", [1, 2, 3]⟩ "chain-a" 5 =
      .panicked "called `Result::unwrap()` on an `Err` value" ∧
    Monitor.from_raw_event_to_batch_event Monitor.rejectAllDecoders
        ⟨"AppModule", [1, 2, 3]⟩ "chain-a" 5 ≠
      .err .invalidCodecDecode := by
  constructor
  · rfl
  · decide

set_option maxHeartbeats 2000000 in
/-- C6 amended: `from_raw_event_to_batch_event` maps an unknown event
kind to an Ok result carrying an empty EventBatch, which
`handle_single_event` then never publishes; for every known event kind
except `AppModule` a payload that fails to decode yields the
`InvalidCodecDecode` error, so only the batch of that single event is
dropped; the `AppModule` branch alone panics on a payload that fails to
decode. -/
theorem from_raw_decode_error_localization
    (d : Monitor.EventDecoders) (raw : Monitor.RawEventDetails)
    (cid : String) (h : Nat) :
    (raw.variant ∉ Monitor.knownKinds →
      Monitor.from_raw_event_to_batch_event d raw cid h =
        .ok ⟨Monitor.Height.new Monitor.REVISION_NUMBER h, [], cid⟩ ∧
      Monitor.handle_single_event d raw cid h = .ok none) ∧
    (raw.variant ∈ Monitor.knownKinds → raw.variant ≠ "AppModule" →
      Monitor.payloadDecodeFails d raw = true →
      Monitor.from_raw_event_to_batch_event d raw cid h =
        .err .invalidCodecDecode ∧
      Monitor.handle_single_event d raw cid h = .ok none) ∧
    (raw.variant = "AppModule" →
      Monitor.payloadDecodeFails d raw = true →
      Monitor.from_raw_event_to_batch_event d raw cid h =
        .panicked "called `Result::unwrap()` on an `Err` value") := by
  obtain ⟨v, data⟩ := raw
  refine ⟨?_, ?_, ?_⟩
  · intro hmem
    have hfr : Monitor.from_raw_event_to_batch_event d ⟨v, data⟩ cid h =
        .ok ⟨Monitor.Height.new Monitor.REVISION_NUMBER h, [], cid⟩ := by
      unfold Monitor.from_raw_event_to_batch_event
      split
      all_goals simp_all [Monitor.knownKinds]
    exact ⟨hfr, by simp [Monitor.handle_single_event, hfr, List.isEmpty]⟩
  · intro hmem hne hfail
    fin_cases hmem
    all_goals
      first
      | exact absurd rfl hne
      | (simp only [Monitor.payloadDecodeFails, Option.isNone_iff_eq_none] at hfail
         refine ⟨by simp [Monitor.from_raw_event_to_batch_event, hfail], ?_⟩
         simp [Monitor.handle_single_event,
           Monitor.from_raw_event_to_batch_event, hfail])
  · intro hv hfail
    have hv2 : v = "AppModule" := hv
    subst hv2
    simp only [Monitor.payloadDecodeFails, Option.isNone_iff_eq_none] at hfail
    simp [Monitor.from_raw_event_to_batch_event, hfail]

/-- witness instantiating `from_raw_decode_error_localization` at
concrete inputs: an unrecognized kind produces an unpublished empty
batch, a malformed `CreateClient` payload produces the codec error, and
a malformed `AppModule` payload panics. -/
theorem from_raw_decode_error_localization_witness :
    (Monitor.from_raw_event_to_batch_event Monitor.rejectAllDecoders
        ⟨"SomeFutureKind", []⟩ "chain-a" 7 =
      .ok ⟨Monitor.Height.new Monitor.REVISION_NUMBER 7, [], "chain-a"⟩) ∧
    (Monitor.from_raw_event_to_batch_event Monitor.rejectAllDecoders
        ⟨"CreateClient", []⟩ "chain-a" 7 = .err .invalidCodecDecode) ∧
    (Monitor.from_raw_event_to_batch_event Monitor.rejectAllDecoders
        ⟨"AppModule", []⟩ "chain-a" 7 =
      .panicked "called `Result::unwrap()` on an `Err` value") :=
  ⟨((from_raw_decode_error_localization Monitor.rejectAllDecoders
      ⟨"SomeFutureKind", []⟩ "chain-a" 7).1 (by decide)).1,
    ((from_raw_decode_error_localization Monitor.rejectAllDecoders
      ⟨"CreateClient", []⟩ "chain-a" 7).2.1 (by decide) (by decide) (by decide)).1,
    (from_raw_decode_error_localization Monitor.rejectAllDecoders
      ⟨"AppModule", []⟩ "chain-a" 7).2.2 rfl (by decide)⟩

/-- C8 counterexample: a published `CreateClient` batch carries the
height found in the decoded event payload (99 here), not the freshly
queried latest height (5 here), refuting the claim that every published
EventBatch carries the queried height. -/
theorem event_batch_height_from_payload_cex :
    Monitor.handle_single_event Monitor.payloadHeight99Decoders
        ⟨"CreateClient", [0]⟩ "chain-a" 5 =
      .ok (some
        ⟨⟨0, 99⟩,
          [.createClient "07-tendermint-0" "07-tendermint" ⟨0, 98⟩],
          "chain-a"⟩) ∧
    (⟨0, 99⟩ : Monitor.Height) ≠
      Monitor.Height.new Monitor.REVISION_NUMBER 5 := by
  constructor
  · rfl
  · decide

/-- C8 amended: a published EventBatch for the client, connection,
channel and packet event kinds carries the height taken from the decoded
event payload, while the `AppModule`, `ChainError`, `ExtrinsicSuccess`
and unknown kinds stamp the batch with the latest height that
`handle_single_event` freshly queried for this event. -/
theorem event_batch_height_provenance
    (d : Monitor.EventDecoders) (raw : Monitor.RawEventDetails)
    (cid : String) (h : Nat) (batch : Monitor.EventBatch)
    (hpub : Monitor.handle_single_event d raw cid h = .ok (some batch)) :
    (raw.variant ∈ Monitor.payloadHeightKinds →
      Monitor.payloadEventHeight d raw = some batch.height) ∧
    (raw.variant ∉ Monitor.payloadHeightKinds →
      batch.height = Monitor.Height.new Monitor.REVISION_NUMBER h) := by
  obtain ⟨v, data⟩ := raw
  have hok : Monitor.from_raw_event_to_batch_event d ⟨v, data⟩ cid h =
      .ok batch := by
    unfold Monitor.handle_single_event at hpub
    split at hpub
    · rename_i b heq
      split at hpub
      · cases hpub
      · cases hpub
        exact heq
    · cases hpub
    · cases hpub
  clear hpub
  unfold Monitor.from_raw_event_to_batch_event at hok
  split at hok
  all_goals try split at hok
  all_goals try split at hok
  all_goals try cases hok
  all_goals constructor
  all_goals intro hmem
  all_goals simp_all [Monitor.payloadEventHeight, Monitor.payloadHeightKinds]

/-- witness instantiating `event_batch_height_provenance` at the
concrete decoders where the `CreateClient` payload carries height 99:
the height of the published batch is the payload height. -/
theorem event_batch_height_provenance_witness :
    Monitor.payloadEventHeight Monitor.payloadHeight99Decoders
        ⟨"CreateClient", [0]⟩ =
      some (⟨0, 99⟩ : Monitor.Height) :=
  (event_batch_height_provenance Monitor.payloadHeight99Decoders
      ⟨"CreateClient", [0]⟩ "chain-a" 5
      ⟨⟨0, 99⟩,
        [.createClient "07-tendermint-0" "07-tendermint" ⟨0, 98⟩],
        "chain-a"⟩
      (by decide)).1 (by decide)

end Hermes

namespace Hermes
namespace Beefy

/-! ## Signature verifier (`verify_commitment_signatures` in
update_client_state.rs) -/

/-- the struct `beefy_light_client::ValidatorMerkleProof`: sibling hashes bottom-up,
leaf count, leaf index and the 20-byte leaf address. -/
structure ValidatorMerkleProof where
  proof : List (List Nat)
  number_of_leaves : Nat
  leaf_index : Nat
  leaf : List Nat
deriving Repr, DecidableEq

/-- the `beefy_light_client::Error` variants produced by
`verify_commitment_signatures`. -/
inductive BeefyError where
  | invalidMessage
  | invalidSignature
  | invalidRecoveryId
  | wrongSignature
  | validatorNotFound
  | invalidValidatorProof
deriving Repr, DecidableEq

/-- the cryptographic primitives `verify_commitment_signatures` calls
into: they live in the external `libsecp256k1` and `beefy_merkle_tree`
crates, so the embedding takes them as parameters.  `parseMessage` is
`Message::parse_slice`, `parseStandardSlice` is
`Signature::parse_standard_slice` on the first 64 signature bytes,
`parseRecoveryId` is `RecoveryId::parse` on byte 64, `recover` is
`libsecp256k1::recover` followed by `serialize()` (the 65-byte
uncompressed public key), `keccak256` is `Keccak256::hash` (a 32-byte
digest), and `verifyMerkleProof` is `beefy_merkle_tree::verify_proof`
applied to (root, proof, number_of_leaves, leaf_index, leaf). -/
structure CryptoOps (Msg Sig RecId : Type) where
  parseMessage : List Nat → Option Msg
  parseStandardSlice : List Nat → Option Sig
  parseRecoveryId : Nat → Option RecId
  recover : Msg → Sig → RecId → Option (List Nat)
  keccak256 : List Nat → List Nat
  verifyMerkleProof : List Nat → List (List Nat) → Nat → Nat → List Nat → Bool

/-- the signer address derivation
`Keccak256::hash(&validator[1..])[12..]`: Keccak-256 of the serialized
public key with its prefix byte stripped, keeping everything past byte
12 of the 32-byte digest (its last 20 bytes). -/
def derivedAddress {Msg Sig RecId : Type} (ops : CryptoOps Msg Sig RecId)
    (validator : List Nat) : List Nat :=
  (ops.keccak256 (validator.drop 1)).drop 12

/-- the inner `for proof in validator_proofs` loop: the first supplied
proof whose `leaf` equals the recovered address is checked with
`verify_proof` (failing `InvalidValidatorProof` when it does not verify
against the validator-set root); when no proof matches the address the
result is `ValidatorNotFound`. -/
def checkAddressInProofs {Msg Sig RecId : Type} (ops : CryptoOps Msg Sig RecId)
    (validator_set_root : List Nat)
    (validator_proofs : List ValidatorMerkleProof) (addr : List Nat) :
    Except BeefyError Unit :=
  match validator_proofs with
  | [] => .error .validatorNotFound
  | p :: rest =>
    if addr = p.leaf then
      if ops.verifyMerkleProof validator_set_root p.proof p.number_of_leaves
          p.leaf_index p.leaf then
        .ok ()
      else
        .error .invalidValidatorProof
    else
      checkAddressInProofs ops validator_set_root rest addr

/-- the body of the signature loop for one present 65-byte signature:
parse the (r,s) pair from the first 64 bytes (failing
`InvalidSignature`), parse the recovery id from byte 64 (failing
`InvalidRecoveryId`), recover the public key (failing `WrongSignature`),
derive the signer address and match it against the supplied validator
proofs. -/
def verifySingleSignature {Msg Sig RecId : Type} (ops : CryptoOps Msg Sig RecId)
    (msg : Msg) (validator_set_root : List Nat)
    (validator_proofs : List ValidatorMerkleProof) (signature : List Nat) :
    Except BeefyError Unit :=
  match ops.parseStandardSlice (signature.take 64) with
  | none => .error .invalidSignature
  | some sig =>
    match ops.parseRecoveryId (signature.getD 64 0) with
    | none => .error .invalidRecoveryId
    | some recovery_id =>
      match ops.recover msg sig recovery_id with
      | none => .error .wrongSignature
      | some validator =>
        checkAddressInProofs ops validator_set_root validator_proofs
          (derivedAddress ops validator)

/-- the signature loop: each examined signature is checked in order and
the first failure is returned by the `?` operator. -/
def verifySignatureList {Msg Sig RecId : Type} (ops : CryptoOps Msg Sig RecId)
    (msg : Msg) (validator_set_root : List Nat)
    (validator_proofs : List ValidatorMerkleProof) :
    List (List Nat) → Except BeefyError Unit
  | [] => .ok ()
  | s :: rest =>
    match verifySingleSignature ops msg validator_set_root validator_proofs s with
    | .ok _ => verifySignatureList ops msg validator_set_root validator_proofs rest
    | .error e => .error e

/-- shallow embedding of `verify_commitment_signatures`
(update_client_state.rs): parse the commitment hash as a message
(failing `InvalidMessage`), then iterate
`signatures.iter().skip(start_position).take(interations).flatten()` —
the present signatures in the window
`[start_position, start_position + interations)` — checking each one. -/
def verify_commitment_signatures {Msg Sig RecId : Type}
    (ops : CryptoOps Msg Sig RecId) (commitment_hash : List Nat)
    (signatures : List (Option (List Nat))) (validator_set_root : List Nat)
    (validator_proofs : List ValidatorMerkleProof)
    (start_position interations : Nat) : Except BeefyError Unit :=
  match ops.parseMessage commitment_hash with
  | none => .error .invalidMessage
  | some msg =>
    verifySignatureList ops msg validator_set_root validator_proofs
      (((signatures.drop start_position).take interations).filterMap id)

/-- a concrete primitive family for instantiating the verifier theorem:
message parsing accepts exactly 32 bytes, signature parsing accepts
exactly 64 bytes, recovery ids up to 3, recovery always returns the
65-byte key of sevens, the digest is a deterministic 32-byte function of
the input length, and every Merkle proof verifies. -/
def toyCrypto : CryptoOps Nat Nat Nat where
  parseMessage := fun l => if l.length = 32 then some 0 else none
  parseStandardSlice := fun l => if l.length = 64 then some 0 else none
  parseRecoveryId := fun b => if b ≤ 3 then some b else none
  recover := fun _ _ _ => some (List.replicate 65 7)
  keccak256 := fun l => (List.range 32).map fun i => (i + l.length) % 256
  verifyMerkleProof := fun _ _ _ _ _ => true

/-- the validator proof whose leaf is the address derived by `toyCrypto`
from the recovered key of sevens. -/
def toyProof : ValidatorMerkleProof where
  proof := []
  number_of_leaves := 1
  leaf_index := 0
  leaf := ((List.range 32).map fun i => (i + 64) % 256).drop 12

end Beefy
end Hermes

namespace Hermes

/-- decidable equality of `Except` results, so that concrete runs of the
verifier can be checked by `decide`. -/
instance {e a : Type} [DecidableEq e] [DecidableEq a] :
    DecidableEq (Except e a) := fun x y =>
  match x, y with
  | .ok v, .ok w =>
    if h : v = w then isTrue (by rw [h])
    else isFalse (by intro hc; cases hc; exact h rfl)
  | .ok _, .error _ => isFalse (by intro hc; cases hc)
  | .error _, .ok _ => isFalse (by intro hc; cases hc)
  | .error v, .error w =>
    if h : v = w then isTrue (by rw [h])
    else isFalse (by intro hc; cases hc; exact h rfl)

/-- helper: the signature loop succeeds exactly when every signature in
the list passes the per-signature check. -/
theorem verifySignatureList_ok_iff {Msg Sig RecId : Type}
    (ops : Beefy.CryptoOps Msg Sig RecId) (msg : Msg) (root : List Nat)
    (proofs : List Beefy.ValidatorMerkleProof) (l : List (List Nat)) :
    Beefy.verifySignatureList ops msg root proofs l = .ok () ↔
      ∀ s ∈ l, Beefy.verifySingleSignature ops msg root proofs s = .ok () := by
  induction l with
  | nil => simp [Beefy.verifySignatureList]
  | cons s rest ih =>
    simp only [Beefy.verifySignatureList]
    cases h1 : Beefy.verifySingleSignature ops msg root proofs s with
    | error e => simp [h1]
    | ok u =>
      cases u
      simp [h1, ih]

/-- C1: `verify_commitment_signatures` examines exactly the present
signatures in the window `[start_position, start_position +
interations)` of the sparse signature list: it fails `InvalidMessage`
when the commitment hash does not parse, and otherwise returns `Ok(())`
precisely when every present signature in that window passes the whole
per-signature pipeline (signature parse, recovery-id parse, public-key
recovery, address match against a supplied proof, Merkle verification
against the validator-set root); moreover the derived signer address is
the last 20 bytes of the 32-byte Keccak-256 digest of the public key
with its prefix byte stripped. -/
theorem verify_commitment_signatures_characterization
    {Msg Sig RecId : Type} (ops : Beefy.CryptoOps Msg Sig RecId)
    (commitment_hash : List Nat) (signatures : List (Option (List Nat)))
    (root : List Nat) (proofs : List Beefy.ValidatorMerkleProof)
    (start_position interations : Nat) :
    (ops.parseMessage commitment_hash = none →
      Beefy.verify_commitment_signatures ops commitment_hash signatures root
        proofs start_position interations = .error .invalidMessage) ∧
    (∀ msg, ops.parseMessage commitment_hash = some msg →
      (Beefy.verify_commitment_signatures ops commitment_hash signatures root
          proofs start_position interations = .ok () ↔
        ∀ s ∈ ((signatures.drop start_position).take interations).filterMap id,
          Beefy.verifySingleSignature ops msg root proofs s = .ok ())) ∧
    (∀ validator, (ops.keccak256 (validator.drop 1)).length = 32 →
      Beefy.derivedAddress ops validator =
        (ops.keccak256 (validator.drop 1)).drop
          ((ops.keccak256 (validator.drop 1)).length - 20)) := by
  refine ⟨?_, ?_, ?_⟩
  · intro hnone
    simp [Beefy.verify_commitment_signatures, hnone]
  · intro msg hsome
    simp only [Beefy.verify_commitment_signatures, hsome]
    exact verifySignatureList_ok_iff ops msg root proofs _
  · intro validator hlen
    rw [hlen]
    rfl

/-- witness instantiating `verify_commitment_signatures_characterization`
with `toyCrypto`: a sparse list with one present signature in the window
`[1, 3)` verifies end to end. -/
theorem verify_commitment_signatures_characterization_witness :
    Beefy.verify_commitment_signatures Beefy.toyCrypto (List.replicate 32 0)
      [none, some (List.replicate 65 0), none] [9] [Beefy.toyProof] 1 2 =
      .ok () :=
  ((verify_commitment_signatures_characterization Beefy.toyCrypto
      (List.replicate 32 0) [none, some (List.replicate 65 0), none] [9]
      [Beefy.toyProof] 1 2).2.1 0 (by decide)).mpr (by decide)

end Hermes

namespace Hermes
namespace Retry

/-! ## Reconnect retry strategy (`retry_strategy` module and `reconnect`
in substrate_mointor.rs) -/

/-- the `retry::delay::Fibonacci` iterator seeded with
`INITIAL_DELAY = Duration::from_secs(1)`: delays in whole seconds
1, 1, 2, 3, 5, 8, ... -/
def fibDelay : Nat → Nat
  | 0 => 1
  | 1 => 1
  | n + 2 => fibDelay n + fibDelay (n + 1)

/-- the constant `MAX_DELAY`: 60 seconds (1 minute per-step cap). -/
def MAX_DELAY : Nat := 60

/-- the constant `MAX_TOTAL_DELAY`: 600 seconds (10 minutes cumulative cap). -/
def MAX_TOTAL_DELAY : Nat := 600

/-- Modelled from the spec: `clamp_total` of `crate::util::retry` (whose
defining module is outside the included sources) bounds the delay
sequence as §4.6 describes — Fibonacci growth, 1s floor, a per-step cap
of `maxDelay`, and an end of the sequence before the cumulative sum of
the yielded delays would exceed `maxTotal`.  The fuel argument only
bounds the recursion; with every delay at least one second,
`maxTotal + 1` steps always suffice. -/
def clampTotalList (f : Nat → Nat) (maxDelay maxTotal : Nat) : List Nat :=
  go 0 maxTotal (maxTotal + 1)
where
  go (i remaining fuel : Nat) : List Nat :=
    match fuel with
    | 0 => []
    | fuel + 1 =>
      let d := min (f i) maxDelay
      if d ≤ remaining then d :: go (i + 1) (remaining - d) fuel else []

/-- the strategy `retry_strategy::default()`:
`clamp_total(Fibonacci::from(INITIAL_DELAY), MAX_DELAY, MAX_TOTAL_DELAY)`. -/
def retry_strategy_default : List Nat :=
  clampTotalList fibDelay MAX_DELAY MAX_TOTAL_DELAY

/-- Modelled from the spec: `retry_with_index` of `crate::util::retry`
(outside the included sources) drives `reconnect`: it attempts the
operation, and on failure sleeps the next delay of the strategy before
trying again; when the delay sequence is exhausted it stops with a
terminal error instead of retrying further, which `reconnect` surfaces
as the final failure log.  The run returns the number of attempts made
and the total time slept, as `Ok` on success or `Err` on exhaustion. -/
def retryRun (op : Nat → Bool) (attempt slept : Nat) :
    List Nat → Except (Nat × Nat) (Nat × Nat)
  | [] => if op attempt then .ok (attempt, slept) else .error (attempt, slept)
  | d :: rest =>
    if op attempt then .ok (attempt, slept)
    else retryRun op (attempt + 1) (slept + d) rest

end Retry
end Hermes

namespace Hermes

/-- C9: the reconnect delay sequence is the Fibonacci sequence from 1
second with every individual delay capped at 60 seconds (17 delays:
1, 1, 2, 3, 5, 8, 13, 21, 34, 55 and then the 60-second cap), its
cumulative sum is 563 seconds and never exceeds the 600-second
cumulative cap, and against an operation that always fails (a
permanently unreachable endpoint) the retry run exhausts the sequence
and surfaces a terminal error after 18 attempts with exactly 563 seconds
of total delay. -/
theorem reconnect_backoff_bounded :
    Retry.retry_strategy_default =
      (List.range 17).map (fun i => min (Retry.fibDelay i) 60) ∧
    Retry.retry_strategy_default =
      [1, 1, 2, 3, 5, 8, 13, 21, 34, 55, 60, 60, 60, 60, 60, 60, 60] ∧
    Retry.retry_strategy_default.all (fun d => decide (d ≤ 60)) = true ∧
    Retry.retry_strategy_default.sum = 563 ∧
    Retry.retry_strategy_default.sum ≤ Retry.MAX_TOTAL_DELAY ∧
    Retry.retryRun (fun _ => false) 1 0 Retry.retry_strategy_default =
      .error (18, 563) := by
  refine ⟨by decide, by decide, by decide, by decide, by decide, by decide⟩

end Hermes
